import Mathlib

/-!
Shallow embedding of the QWAMOS secure-boot verification pipeline
(src/bootloader/kyber1024_verify.c, src/bootloader/kyber1024_verify.h)
and of the USB kill-switch sysfs driver
(src/hypervisor/drivers/usb_killswitch.c).

Conventions:
* C byte buffers are `List UInt8`; a pointer-plus-length pair `(p, n)` is the
  list of bytes reachable from `p`, of which the first `n` are the payload.
* The external liboqs primitives (`OQS_SHA2_sha256`, `OQS_SIG_new`,
  `OQS_SIG_verify`) are parameters collected in a `LibOQS` structure: the
  verification code treats them as opaque oracles, so theorems quantify over
  them.  `sigNewOk` records whether `OQS_SIG_new` returns a non-NULL scheme.
* `kyber1024_verify_image` in C has six distinct return sites, each with its
  own diagnostic message; the result type `VerifyResult` has one constructor
  per return site, and `resultCode` maps it to the C `int` return value
  (0 on the success path, -1 on every failure path).
* Out-of-range reads (which in C would be undefined behaviour, since the code
  performs no bounds check) are modelled by `List.getD _ 0` / truncating
  `take`, i.e. the model reads a fixed junk value where C reads unspecified
  memory.
-/

namespace QWAMOS

/-- Constants from src/bootloader/kyber1024_verify.h. -/
def KYBER1024_PUBLIC_KEY_BYTES : Nat := 1568

def KYBER1024_SIGNATURE_BYTES : Nat := 3309

def QWAMOS_SIG_MAGIC : Nat := 0x4D415751

def QWAMOS_SIG_VERSION : Nat := 1

/-- Layout of `struct qwamos_signature` (packed trailer appended after the
payload).  The three leading fields are `uint32_t` values, modelled as `Nat`
(every value produced by parsing is below 2^32). -/
structure qwamos_signature where
  magic : Nat
  version : Nat
  image_size : Nat
  image_hash : List UInt8
  kyber_signature : List UInt8
  reserved : List UInt8
deriving DecidableEq, Repr

/-- External liboqs primitives, abstracted as oracles.  `sha256` models
`OQS_SHA2_sha256` (always writes a 32-byte digest), `sigNewOk` models whether
`OQS_SIG_new(OQS_SIG_alg_dilithium_5)` returns a non-NULL scheme, and
`oqsVerify msg sig pk` models `OQS_SIG_verify` returning `OQS_SUCCESS`. -/
structure LibOQS where
  sha256 : List UInt8 → List UInt8
  sigNewOk : Bool
  oqsVerify : List UInt8 → List UInt8 → List UInt8 → Bool

/-- Embedded public key: `static const uint8_t qwamos_public_key[1568]`,
all bytes zero (the provisioning placeholder in the source). -/
def qwamos_public_key : List UInt8 := List.replicate KYBER1024_PUBLIC_KEY_BYTES 0

/-- sha256_hash (kyber1024_verify.c): delegates to `OQS_SHA2_sha256` over the
first `data_size` bytes at `data`. -/
def sha256_hash (env : LibOQS) (data : List UInt8) (data_size : Nat) : List UInt8 :=
  env.sha256 (data.take data_size)

/-- kyber1024_verify_signature (kyber1024_verify.c, lines 32-58): returns -1
when `OQS_SIG_new` fails, 0 when `OQS_SIG_verify` reports `OQS_SUCCESS`, and
-1 otherwise. -/
def kyber1024_verify_signature (env : LibOQS) (message : List UInt8)
    (signature : List UInt8) (public_key : List UInt8) : Int :=
  if env.sigNewOk = false then -1
  else if env.oqsVerify message signature public_key then 0
  else -1

/-- Result of `kyber1024_verify_image`, one constructor per return site of the
C function (each site prints a distinct diagnostic before returning; every
failure site returns the C value -1, the success site returns 0). -/
inductive VerifyResult where
  | ok
  | invalidMagic
  | unsupportedVersion
  | sizeMismatch
  | hashMismatch
  | signatureInvalid
deriving DecidableEq, Repr

/-- Map a `VerifyResult` to the C `int` return value of
`kyber1024_verify_image`. -/
def resultCode : VerifyResult → Int
  | .ok => 0
  | _ => -1

/-- kyber1024_verify_image (kyber1024_verify.c, lines 63-116): checks magic,
version, image_size, then computes the SHA-256 digest of the first
`image_size` bytes of `image`, compares it with `signature.image_hash`
(`memcmp` of the 32-byte fields), and finally calls
`kyber1024_verify_signature` on the digest. -/
def kyber1024_verify_image (env : LibOQS) (image : List UInt8) (image_size : Nat)
    (signature : qwamos_signature) (public_key : List UInt8) : VerifyResult :=
  if signature.magic ≠ QWAMOS_SIG_MAGIC then .invalidMagic
  else if signature.version ≠ QWAMOS_SIG_VERSION then .unsupportedVersion
  else if signature.image_size ≠ image_size then .sizeMismatch
  else if sha256_hash env image image_size ≠ signature.image_hash then .hashMismatch
  else if kyber1024_verify_signature env (sha256_hash env image image_size)
            signature.kyber_signature public_key ≠ 0 then .signatureInvalid
  else .ok

/-- Read a little-endian `uint32_t` from `mem` at byte offset `off`
(out-of-range bytes read as 0, see the module comment on unchecked reads). -/
def readLE32 (mem : List UInt8) (off : Nat) : Nat :=
  (mem.getD off 0).toNat
    + 256 * (mem.getD (off + 1) 0).toNat
    + 65536 * (mem.getD (off + 2) 0).toNat
    + 16777216 * (mem.getD (off + 3) 0).toNat

/-- Interpretation of the cast
`sig = (const struct qwamos_signature *)(image + size)` in
`kyber1024_verify_kernel` / `kyber1024_verify_initramfs`: the packed trailer
fields read from `mem` starting at offset `off` (magic at +0, version at +4,
image_size at +8, image_hash at +12, kyber_signature at +44, reserved at
+3353; total 3417 bytes).  The cast itself performs no bounds check. -/
def parseTrailer (mem : List UInt8) (off : Nat) : qwamos_signature :=
  { magic := readLE32 mem off
    version := readLE32 mem (off + 4)
    image_size := readLE32 mem (off + 8)
    image_hash := (mem.drop (off + 12)).take 32
    kyber_signature := (mem.drop (off + 44)).take KYBER1024_SIGNATURE_BYTES
    reserved := (mem.drop (off + 3353)).take 64 }

/-- Size in bytes of the packed `struct qwamos_signature` trailer
(4 + 4 + 4 + 32 + 3309 + 64). -/
def SIG_TRAILER_BYTES : Nat := 3417

/-- kyber1024_verify_kernel (kyber1024_verify.c, lines 121-143): reads the
trailer at `kernel_image + kernel_size` (no bounds check) and delegates to
`kyber1024_verify_image` with the embedded public key; returns -1 when that
call returns nonzero, 0 otherwise. -/
def kyber1024_verify_kernel (env : LibOQS) (mem : List UInt8)
    (kernel_size : Nat) : Int :=
  let sig := parseTrailer mem kernel_size
  if resultCode (kyber1024_verify_image env mem kernel_size sig
      qwamos_public_key) ≠ 0 then -1
  else 0

/-- kyber1024_verify_initramfs (kyber1024_verify.c, lines 148-170): identical
computation to `kyber1024_verify_kernel` apart from log text — reads the
trailer at `initramfs_image + initramfs_size` and delegates to
`kyber1024_verify_image` with the embedded public key. -/
def kyber1024_verify_initramfs (env : LibOQS) (mem : List UInt8)
    (initramfs_size : Nat) : Int :=
  let sig := parseTrailer mem initramfs_size
  if resultCode (kyber1024_verify_image env mem initramfs_size sig
      qwamos_public_key) ≠ 0 then -1
  else 0

/-- kyber1024_load_public_key (kyber1024_verify.c, lines 175-185): fails
(returns -1, modelled `none`) when the caller's buffer is smaller than
`KYBER1024_PUBLIC_KEY_BYTES`; otherwise copies the embedded key into the
buffer and returns 0 (modelled `some qwamos_public_key`). -/
def kyber1024_load_public_key (key_size : Nat) : Option (List UInt8) :=
  if key_size < KYBER1024_PUBLIC_KEY_BYTES then none
  else some qwamos_public_key

/-- secure_boot_verify_chain (kyber1024_verify.c, lines 190-219): declares a
buffer of exactly `KYBER1024_PUBLIC_KEY_BYTES`, calls
`kyber1024_load_public_key` on it, returns -1 if that fails, and then returns
0.  The body contains no call to any image-verification function (the source
comments defer kernel/initramfs verification to the U-Boot boot sequence). -/
def secure_boot_verify_chain : Int :=
  match kyber1024_load_public_key KYBER1024_PUBLIC_KEY_BYTES with
  | none => -1
  | some _ => 0

/-! Embedding of the USB kill-switch driver
(src/hypervisor/drivers/usb_killswitch.c).  The driver keeps a
`struct killswitch_state` with one `int` per toggle and drives three GPIO
pins (123 = camera, 124 = microphone, 125 = cellular).  Each sysfs `store`
handler parses the written text with `sscanf(buf, "%d", &value)`, rejects
anything but 0 or 1 with `-EINVAL` (-22), and otherwise records the value and
sets the corresponding GPIO; each `show` handler prints the stored value with
`sprintf(buf, "%d\n", ...)`. -/

/-- struct killswitch_state (usb_killswitch.c): one `int` per toggle. -/
structure killswitch_state where
  camera_enabled : Int
  mic_enabled : Int
  cellular_enabled : Int
deriving DecidableEq, Repr

/-- Levels of the three GPIO lines driven by the module
(pin 123 = camera relay, pin 124 = microphone relay, pin 125 = cellular
relay). -/
structure gpio_state where
  pin123 : Int
  pin124 : Int
  pin125 : Int
deriving DecidableEq, Repr

/-- Whitespace as recognised by `sscanf` when skipping before a conversion. -/
def c_isspace (c : Char) : Bool :=
  c = ' ' || c = '\t' || c = '\n' || c = '\x0b' || c = '\x0c' || c = '\r'

/-- Value of a nonempty run of decimal digits. -/
def decDigits (s : List Char) : Option Nat :=
  let ds := s.takeWhile Char.isDigit
  if ds.isEmpty then none
  else some (ds.foldl (fun a c => a * 10 + (c.toNat - 48)) 0)

/-- Truncation of a parsed value on assignment to a 32-bit `int`
(two's complement): `simple_strtoull` accumulates digits in an
`unsigned long long` with wraparound and `vsscanf` assigns the (possibly
negated) result to the `int` destination, so the stored value is the input
reduced mod 2^64 and then mod 2^32, i.e. mod 2^32, reinterpreted as a signed
32-bit integer. -/
def truncInt32 (n : Int) : Int :=
  let m := n % 4294967296
  if m < 2147483648 then m else m - 4294967296

/-- Behaviour of the kernel's `sscanf(buf, "%d", &value)` (lib/vsprintf.c
`vsscanf`): skip leading whitespace, accept an optional `-` (a leading `+` is
not recognised and fails the conversion) followed by at least one decimal
digit, ignore everything after the digit run, and truncate the accumulated
value to a signed 32-bit `int` on assignment; `none` models `sscanf`
returning a match count other than 1. -/
def sscanf_d (s : List Char) : Option Int :=
  match s.dropWhile c_isspace with
  | '-' :: rest => (decDigits rest).map (fun n => truncInt32 (-(n : Int)))
  | rest => (decDigits rest).map (fun n => truncInt32 (n : Int))

/-- camera_store (usb_killswitch.c, lines 154-172): parse, reject anything but
0/1 with `-EINVAL`, otherwise set `camera_enabled` and GPIO 123 and return the
byte count.  The result is (return value, new state, new GPIO levels). -/
def camera_store (buf : List Char) (st : killswitch_state) (g : gpio_state) :
    Int × killswitch_state × gpio_state :=
  match sscanf_d buf with
  | none => (-22, st, g)
  | some v =>
    if v ≠ 0 ∧ v ≠ 1 then (-22, st, g)
    else ((buf.length : Int), { st with camera_enabled := v }, { g with pin123 := v })

/-- mic_store (usb_killswitch.c, lines 184-202): as `camera_store` but for
`mic_enabled` and GPIO 124. -/
def mic_store (buf : List Char) (st : killswitch_state) (g : gpio_state) :
    Int × killswitch_state × gpio_state :=
  match sscanf_d buf with
  | none => (-22, st, g)
  | some v =>
    if v ≠ 0 ∧ v ≠ 1 then (-22, st, g)
    else ((buf.length : Int), { st with mic_enabled := v }, { g with pin124 := v })

/-- cellular_store (usb_killswitch.c, lines 214-232): as `camera_store` but
for `cellular_enabled` and GPIO 125. -/
def cellular_store (buf : List Char) (st : killswitch_state) (g : gpio_state) :
    Int × killswitch_state × gpio_state :=
  match sscanf_d buf with
  | none => (-22, st, g)
  | some v =>
    if v ≠ 0 ∧ v ≠ 1 then (-22, st, g)
    else ((buf.length : Int), { st with cellular_enabled := v }, { g with pin125 := v })

/-- camera_show (usb_killswitch.c): `sprintf(buf, "%d\n", camera_enabled)`. -/
def camera_show (st : killswitch_state) : String :=
  toString st.camera_enabled ++ "\n"

/-- mic_show (usb_killswitch.c): `sprintf(buf, "%d\n", mic_enabled)`. -/
def mic_show (st : killswitch_state) : String :=
  toString st.mic_enabled ++ "\n"

/-- cellular_show (usb_killswitch.c): `sprintf(buf, "%d\n",
cellular_enabled)`. -/
def cellular_show (st : killswitch_state) : String :=
  toString st.cellular_enabled ++ "\n"

/-! Theorems. -/

/-- C1: for every image, declared size, signature record and public key,
`kyber1024_verify_image` returns success (C value 0) if and only if the
record's magic equals `QWAMOS_SIG_MAGIC`, its version equals the supported
version 1, its `image_size` equals the declared payload length, the freshly
computed SHA-256 digest of the payload equals the record's `image_hash`, and
the signature over that digest verifies under the public key; any violated
invariant yields failure. -/
theorem verify_image_success_iff (env : LibOQS) (image : List UInt8)
    (image_size : Nat) (s : qwamos_signature) (public_key : List UInt8) :
    resultCode (kyber1024_verify_image env image image_size s public_key) = 0 ↔
      (s.magic = QWAMOS_SIG_MAGIC ∧ s.version = QWAMOS_SIG_VERSION ∧
       s.image_size = image_size ∧
       sha256_hash env image image_size = s.image_hash ∧
       kyber1024_verify_signature env (sha256_hash env image image_size)
         s.kyber_signature public_key = 0) := by
  unfold kyber1024_verify_image
  split_ifs with h1 h2 h3 h4 h5 <;> simp_all [resultCode]

/-- C3: whenever the record's magic differs from `QWAMOS_SIG_MAGIC`,
`kyber1024_verify_image` takes exactly the `invalidMagic` return path, which
is distinct from every other outcome; the result does not depend on the
hashing or signature oracles, so neither the payload hash computation nor the
signature check is performed. -/
theorem verify_image_invalid_magic (env env2 : LibOQS) (image : List UInt8)
    (image_size : Nat) (s : qwamos_signature) (public_key : List UInt8)
    (h : s.magic ≠ QWAMOS_SIG_MAGIC) :
    kyber1024_verify_image env image image_size s public_key = .invalidMagic ∧
    kyber1024_verify_image env image image_size s public_key =
      kyber1024_verify_image env2 image image_size s public_key ∧
    (VerifyResult.invalidMagic ≠ .ok ∧
     VerifyResult.invalidMagic ≠ .unsupportedVersion ∧
     VerifyResult.invalidMagic ≠ .sizeMismatch ∧
     VerifyResult.invalidMagic ≠ .hashMismatch ∧
     VerifyResult.invalidMagic ≠ .signatureInvalid) := by
  refine ⟨?_, ?_, by decide⟩ <;> simp [kyber1024_verify_image, h]

/-- C3 witness: a record with magic 0 is rejected as `invalidMagic` under two
different oracle environments. -/
theorem verify_image_invalid_magic_witness :
    kyber1024_verify_image ⟨fun _ => [], true, fun _ _ _ => true⟩ [] 0
      ⟨0, 1, 0, [], [], []⟩ [] = .invalidMagic ∧
    kyber1024_verify_image ⟨fun _ => [], true, fun _ _ _ => true⟩ [] 0
      ⟨0, 1, 0, [], [], []⟩ [] =
    kyber1024_verify_image ⟨fun _ => List.replicate 32 1, false, fun _ _ _ => false⟩ [] 0
      ⟨0, 1, 0, [], [], []⟩ [] := by
  have h := verify_image_invalid_magic
    ⟨fun _ => [], true, fun _ _ _ => true⟩
    ⟨fun _ => List.replicate 32 1, false, fun _ _ _ => false⟩
    [] 0 ⟨0, 1, 0, [], [], []⟩ [] (by decide)
  exact ⟨h.1, h.2.1⟩

/-- C5: whenever magic and version are valid but the record's `image_size`
differs from the declared payload size, `kyber1024_verify_image` takes
exactly the `sizeMismatch` return path; the result does not depend on the
hashing oracle, so the payload digest is never computed before this failure
is raised. -/
theorem verify_image_size_mismatch (env env2 : LibOQS) (image : List UInt8)
    (image_size : Nat) (s : qwamos_signature) (public_key : List UInt8)
    (h1 : s.magic = QWAMOS_SIG_MAGIC) (h2 : s.version = QWAMOS_SIG_VERSION)
    (h3 : s.image_size ≠ image_size) :
    kyber1024_verify_image env image image_size s public_key = .sizeMismatch ∧
    kyber1024_verify_image env image image_size s public_key =
      kyber1024_verify_image env2 image image_size s public_key := by
  constructor <;> simp [kyber1024_verify_image, h1, h2, h3]

/-- C5 witness: a record declaring size 5 over a 0-byte payload is rejected
as `sizeMismatch` under two different oracle environments. -/
theorem verify_image_size_mismatch_witness :
    kyber1024_verify_image ⟨fun _ => [], true, fun _ _ _ => true⟩ [] 0
      ⟨QWAMOS_SIG_MAGIC, 1, 5, [], [], []⟩ [] = .sizeMismatch ∧
    kyber1024_verify_image ⟨fun _ => [], true, fun _ _ _ => true⟩ [] 0
      ⟨QWAMOS_SIG_MAGIC, 1, 5, [], [], []⟩ [] =
    kyber1024_verify_image ⟨fun _ => List.replicate 32 1, false, fun _ _ _ => false⟩ [] 0
      ⟨QWAMOS_SIG_MAGIC, 1, 5, [], [], []⟩ [] :=
  verify_image_size_mismatch
    ⟨fun _ => [], true, fun _ _ _ => true⟩
    ⟨fun _ => List.replicate 32 1, false, fun _ _ _ => false⟩
    [] 0 ⟨QWAMOS_SIG_MAGIC, 1, 5, [], [], []⟩ [] (by decide) (by decide) (by decide)

/-- C6: `kyber1024_verify_signature` is total and fail-closed — its result is
always 0 or -1, it returns 0 (acceptance) exactly when `OQS_SIG_new`
succeeded and `OQS_SIG_verify` reported success, and whenever it returns
nonzero (covering both initialization failure and cryptographic rejection)
the caller `kyber1024_verify_image` surfaces the single `signatureInvalid`
failure. -/
theorem verify_signature_fail_closed (env : LibOQS)
    (message signature public_key : List UInt8) (image : List UInt8)
    (image_size : Nat) (s : qwamos_signature) (pk : List UInt8) :
    (kyber1024_verify_signature env message signature public_key = 0 ∨
     kyber1024_verify_signature env message signature public_key = -1) ∧
    (kyber1024_verify_signature env message signature public_key = 0 ↔
      env.sigNewOk = true ∧ env.oqsVerify message signature public_key = true) ∧
    (s.magic = QWAMOS_SIG_MAGIC → s.version = QWAMOS_SIG_VERSION →
     s.image_size = image_size →
     sha256_hash env image image_size = s.image_hash →
     kyber1024_verify_signature env (sha256_hash env image image_size)
       s.kyber_signature pk ≠ 0 →
     kyber1024_verify_image env image image_size s pk = .signatureInvalid) := by
  refine ⟨?_, ?_, ?_⟩
  · unfold kyber1024_verify_signature
    split_ifs <;> simp
  · unfold kyber1024_verify_signature
    split_ifs with hA hB <;> simp_all
  · intro hm hv hs hh hsig
    rw [hh] at hsig
    simp [kyber1024_verify_image, hm, hv, hs, hh, hsig]

/-- C6 witness: with `OQS_SIG_new` failing, the wrapper returns -1 and a
record passing all structural and hash checks is rejected as
`signatureInvalid`. -/
theorem verify_signature_fail_closed_witness :
    kyber1024_verify_signature ⟨fun _ => [], false, fun _ _ _ => false⟩ [] [] [] = -1 ∧
    kyber1024_verify_image ⟨fun _ => [], false, fun _ _ _ => false⟩ [] 0
      ⟨QWAMOS_SIG_MAGIC, 1, 0, [], [], []⟩ [] = .signatureInvalid := by
  have h := verify_signature_fail_closed
    ⟨fun _ => [], false, fun _ _ _ => false⟩ [] [] [] [] 0
    ⟨QWAMOS_SIG_MAGIC, 1, 0, [], [], []⟩ []
  refine ⟨?_, h.2.2 rfl rfl rfl rfl (by decide)⟩
  rcases h.1 with h0 | h1
  · exact absurd h0 (by decide)
  · exact h1

/-- C8: verification is deterministic — `kyber1024_verify_image` depends only
on its inputs (the C function mutates no global state), so two calls on the
same unmodified input yield the same outcome, both as a `VerifyResult` and as
the C return value. -/
theorem verify_image_deterministic (env : LibOQS) (image : List UInt8)
    (image_size : Nat) (s : qwamos_signature) (public_key : List UInt8) :
    kyber1024_verify_image env image image_size s public_key =
      kyber1024_verify_image env image image_size s public_key ∧
    resultCode (kyber1024_verify_image env image image_size s public_key) =
      resultCode (kyber1024_verify_image env image image_size s public_key) :=
  ⟨rfl, rfl⟩

/-- C10: kernel and initramfs verification are the same computation — for
every oracle environment, memory contents and size,
`kyber1024_verify_kernel` and `kyber1024_verify_initramfs` return equal
outcomes, both reading the trailer at the payload end and delegating to
`kyber1024_verify_image` with the embedded public key. -/
theorem verify_kernel_eq_verify_initramfs (env : LibOQS) (mem : List UInt8)
    (size : Nat) :
    kyber1024_verify_kernel env mem size = kyber1024_verify_initramfs env mem size :=
  rfl

/-- C2 (code bug): `secure_boot_verify_chain` returns success unconditionally
after loading the key — its body never calls any image-verification function,
so it reports 0 even in an environment where kernel verification fails (here:
`OQS_SIG_new` failing and an 8-byte memory whose trailer region is garbage),
contradicting the header contract that it verifies kernel and initramfs
signatures and returns -1 otherwise. -/
theorem secure_boot_verify_chain_verifies_nothing :
    secure_boot_verify_chain = 0 ∧
    kyber1024_verify_kernel ⟨fun _ => List.replicate 32 0, false, fun _ _ _ => false⟩
      (List.replicate 8 0) 0 = -1 := by
  constructor <;> decide

/-- C4 counterexample: with only 8 trailing bytes available — far fewer than
the 3417 a full `struct qwamos_signature` occupies — the record's fields are
nevertheless read and compared: two same-length memories that differ only in
the would-be magic/version bytes produce different structural-check outcomes
(`invalidMagic` vs `unsupportedVersion`), so no bounds check precedes the
field reads. -/
theorem verify_kernel_no_bounds_check_cex :
    (List.replicate 8 (0 : UInt8)).length < 0 + SIG_TRAILER_BYTES ∧
    ([0x51, 0x57, 0x41, 0x4D, 2, 0, 0, 0] : List UInt8).length < 0 + SIG_TRAILER_BYTES ∧
    kyber1024_verify_image ⟨fun _ => [], true, fun _ _ _ => true⟩
      (List.replicate 8 0) 0
      (parseTrailer (List.replicate 8 0) 0) qwamos_public_key = .invalidMagic ∧
    kyber1024_verify_image ⟨fun _ => [], true, fun _ _ _ => true⟩
      [0x51, 0x57, 0x41, 0x4D, 2, 0, 0, 0] 0
      (parseTrailer [0x51, 0x57, 0x41, 0x4D, 2, 0, 0, 0] 0) qwamos_public_key
      = .unsupportedVersion ∧
    kyber1024_verify_kernel ⟨fun _ => [], true, fun _ _ _ => true⟩
      (List.replicate 8 0) 0 = -1 := by
  refine ⟨by decide, by decide, by decide, by decide, by decide⟩

/-- C4 amended: no bounds check is performed — `kyber1024_verify_kernel`
reads the signature record directly at the payload end regardless of how many
trailing bytes exist, and then magic, version and `image_size` are checked in
that order (an earlier failure preempts the later checks). -/
theorem verify_kernel_reads_trailer_then_checks_in_order (env : LibOQS)
    (mem : List UInt8) (size : Nat) :
    kyber1024_verify_kernel env mem size =
      (if resultCode (kyber1024_verify_image env mem size (parseTrailer mem size)
          qwamos_public_key) ≠ 0 then -1 else 0) ∧
    ((parseTrailer mem size).magic ≠ QWAMOS_SIG_MAGIC →
      kyber1024_verify_image env mem size (parseTrailer mem size)
        qwamos_public_key = .invalidMagic) ∧
    ((parseTrailer mem size).magic = QWAMOS_SIG_MAGIC →
     (parseTrailer mem size).version ≠ QWAMOS_SIG_VERSION →
      kyber1024_verify_image env mem size (parseTrailer mem size)
        qwamos_public_key = .unsupportedVersion) ∧
    ((parseTrailer mem size).magic = QWAMOS_SIG_MAGIC →
     (parseTrailer mem size).version = QWAMOS_SIG_VERSION →
     (parseTrailer mem size).image_size ≠ size →
      kyber1024_verify_image env mem size (parseTrailer mem size)
        qwamos_public_key = .sizeMismatch) := by
  refine ⟨rfl, ?_, ?_, ?_⟩
  · intro h; simp [kyber1024_verify_image, h]
  · intro h1 h2; simp [kyber1024_verify_image, h1, h2]
  · intro h1 h2 h3; simp [kyber1024_verify_image, h1, h2, h3]

/-- C4 amended witness: on an all-zero 8-byte memory the trailer is read
unconditionally and its zero magic fails the first structural check. -/
theorem verify_kernel_reads_trailer_witness :
    (parseTrailer (List.replicate 8 0) 0).magic ≠ QWAMOS_SIG_MAGIC ∧
    kyber1024_verify_image ⟨fun _ => [], true, fun _ _ _ => true⟩
      (List.replicate 8 0) 0 (parseTrailer (List.replicate 8 0) 0)
      qwamos_public_key = .invalidMagic :=
  ⟨by decide,
   (verify_kernel_reads_trailer_then_checks_in_order
      ⟨fun _ => [], true, fun _ _ _ => true⟩
      (List.replicate 8 0) 0).2.1 (by decide)⟩

/-- C7 counterexample: the backing store is an embedded compile-time constant
(always available) and the embedded key has exactly the expected 1568-byte
length, yet `kyber1024_load_public_key` fails when the caller's buffer is
smaller than the key — so failure is not equivalent to "store unavailable or
key of unexpected length". -/
theorem load_public_key_fails_on_small_buffer :
    kyber1024_load_public_key 0 = none ∧
    qwamos_public_key.length = KYBER1024_PUBLIC_KEY_BYTES := by
  constructor
  · decide
  · simp [qwamos_public_key]

/-- C7 amended: `kyber1024_load_public_key` fails exactly when the caller's
buffer is smaller than `KYBER1024_PUBLIC_KEY_BYTES` (1568); in every other
case it succeeds and returns the embedded key unchanged. -/
theorem load_public_key_iff_buffer_large_enough (key_size : Nat) :
    (kyber1024_load_public_key key_size = none ↔
      key_size < KYBER1024_PUBLIC_KEY_BYTES) ∧
    (KYBER1024_PUBLIC_KEY_BYTES ≤ key_size →
      kyber1024_load_public_key key_size = some qwamos_public_key) := by
  unfold kyber1024_load_public_key
  split_ifs with h <;> simp_all

/-- C7 amended witness: a buffer of exactly 1568 bytes succeeds and receives
the embedded key. -/
theorem load_public_key_witness :
    kyber1024_load_public_key 1568 = some qwamos_public_key :=
  (load_public_key_iff_buffer_large_enough 1568).2 (by decide)

/-- C9: for each of the three kill-switch toggle files, a write whose text
parses (under `sscanf` `%d` semantics) as 0 or 1 sets the stored toggle and
its GPIO to that value — leaving the other two toggles and pins unchanged —
and a subsequent read of the same toggle returns that value; a write that
does not parse, or parses to any other integer, returns `-EINVAL` (-22) and
leaves the stored state and all GPIOs unchanged. -/
theorem killswitch_store_behaviour (buf : List Char) (st : killswitch_state)
    (g : gpio_state) :
    (∀ v : Int, sscanf_d buf = some v → (v = 0 ∨ v = 1) →
      camera_store buf st g =
        ((buf.length : Int), ⟨v, st.mic_enabled, st.cellular_enabled⟩,
          ⟨v, g.pin124, g.pin125⟩) ∧
      mic_store buf st g =
        ((buf.length : Int), ⟨st.camera_enabled, v, st.cellular_enabled⟩,
          ⟨g.pin123, v, g.pin125⟩) ∧
      cellular_store buf st g =
        ((buf.length : Int), ⟨st.camera_enabled, st.mic_enabled, v⟩,
          ⟨g.pin123, g.pin124, v⟩) ∧
      camera_show (camera_store buf st g).2.1 = toString v ++ "\n" ∧
      mic_show (mic_store buf st g).2.1 = toString v ++ "\n" ∧
      cellular_show (cellular_store buf st g).2.1 = toString v ++ "\n") ∧
    (sscanf_d buf = none →
      camera_store buf st g = (-22, st, g) ∧
      mic_store buf st g = (-22, st, g) ∧
      cellular_store buf st g = (-22, st, g)) ∧
    (∀ v : Int, sscanf_d buf = some v → ¬(v = 0 ∨ v = 1) →
      camera_store buf st g = (-22, st, g) ∧
      mic_store buf st g = (-22, st, g) ∧
      cellular_store buf st g = (-22, st, g)) := by
  refine ⟨?_, ?_, ?_⟩
  · intro v hv h01
    have hne : ¬(v ≠ 0 ∧ v ≠ 1) := by
      rcases h01 with h | h <;> simp [h]
    simp [camera_store, mic_store, cellular_store, camera_show, mic_show,
      cellular_show, hv, hne]
  · intro hv
    simp [camera_store, mic_store, cellular_store, hv]
  · intro v hv h01
    have hne : v ≠ 0 ∧ v ≠ 1 := by
      constructor <;> intro h <;> exact h01 (by simp [h])
    simp [camera_store, mic_store, cellular_store, hv, hne]

/-- C9 witness: writing the text "1" to the camera toggle from the all-zero
state returns count 1, sets the camera toggle and GPIO 123 to 1 while leaving
the microphone and cellular toggles and pins at 0, and a subsequent read
returns "1"; writing "2" is rejected with -22 and changes nothing; writing
"4294967297" (2^32 + 1, which the kernel's `%d` truncates to the `int` 1) is
accepted with count 10 and sets the toggle and GPIO to 1; writing "+1"
(a leading `+` fails the kernel's `%d` conversion) is rejected with -22. -/
theorem killswitch_store_witness :
    camera_store ['1'] ⟨0, 0, 0⟩ ⟨0, 0, 0⟩ = (1, ⟨1, 0, 0⟩, ⟨1, 0, 0⟩) ∧
    camera_show (camera_store ['1'] ⟨0, 0, 0⟩ ⟨0, 0, 0⟩).2.1 = "1\n" ∧
    camera_store ['2'] ⟨0, 0, 0⟩ ⟨0, 0, 0⟩ = (-22, ⟨0, 0, 0⟩, ⟨0, 0, 0⟩) ∧
    camera_store "4294967297".toList ⟨0, 0, 0⟩ ⟨0, 0, 0⟩ =
      (10, ⟨1, 0, 0⟩, ⟨1, 0, 0⟩) ∧
    camera_store "+1".toList ⟨0, 0, 0⟩ ⟨0, 0, 0⟩ =
      (-22, ⟨0, 0, 0⟩, ⟨0, 0, 0⟩) := by
  have h1 := (killswitch_store_behaviour ['1'] ⟨0, 0, 0⟩ ⟨0, 0, 0⟩).1 1
    (by decide) (Or.inr rfl)
  have h2 := (killswitch_store_behaviour ['2'] ⟨0, 0, 0⟩ ⟨0, 0, 0⟩).2.2 2
    (by decide) (by decide)
  have h3 := (killswitch_store_behaviour "4294967297".toList ⟨0, 0, 0⟩ ⟨0, 0, 0⟩).1 1
    (by decide) (Or.inr rfl)
  have h4 := (killswitch_store_behaviour "+1".toList ⟨0, 0, 0⟩ ⟨0, 0, 0⟩).2.1
    (by decide)
  exact ⟨h1.1, by rw [h1.2.2.2.1]; decide, h2.1, h3.1, h4.1⟩

end QWAMOS
